import Mathlib

/-!
Shallow embedding of the Model Registry (src/unnamed/part_000, class `ModelRegistry`)
and the pieces of src/src/types.ts it depends on.

Conventions of the embedding:
* A JavaScript `RegExp` is modelled by its observable behaviour in this code,
  namely the boolean test `pattern.test(model)`, so `pattern` is an
  `Option (String → Bool)`.  The five concrete default patterns are given
  explicit executable definitions below.
* JavaScript truthiness matters in two guards (`!config.pattern`,
  `config.exactMatch && …`): a `RegExp` object is always truthy, while a
  string is falsy exactly when it is empty.  `patTruthy` and `exactTruthy`
  capture this.
* The imperative class is modelled by explicit state passing.  A thrown
  exception is modelled by `RegResult.error msg s` where `s` is the state at
  the moment of the throw, so "the throw left the state unchanged" is a
  provable statement, not a modelling artifact.
* Logging is observably inert for the registry state and is omitted.
-/

/-- types.ts `PersonaRole = 'system' | 'developer'`. -/
inductive PersonaRole where
  | system
  | developer
deriving DecidableEq, Repr

/-- types.ts `TokenizerEncoding = 'gpt-4o' | 'cl100k_base' | 'o200k_base'`. -/
inductive TokenizerEncoding where
  | gpt4o
  | cl100k_base
  | o200k_base
deriving DecidableEq, Repr

/-- types.ts `ModelConfig`.  `pattern` is the regex's test function. -/
structure ModelConfig where
  pattern : Option (String → Bool) := none
  exactMatch : Option String := none
  personaRole : PersonaRole
  encoding : TokenizerEncoding
  supportsToolCalls : Option Bool := none
  maxTokens : Option Nat := none
  family : Option String := none
  description : Option String := none

/-- Registry state: `configs` (most recently registered first) and the
resolution cache, a string-keyed map modelled as an association list in
insertion order. -/
structure ModelRegistry where
  configs : List ModelConfig
  cache : List (String × ModelConfig)

/-- Outcome of a registry method: normal return value plus resulting state,
or a thrown error message plus the state at the moment of the throw. -/
inductive RegResult (α : Type) where
  | ok (value : α) (state : ModelRegistry)
  | error (msg : String) (state : ModelRegistry)

/-- The returned value, if the call did not throw. -/
def RegResult.getValue : RegResult α → Option α
  | .ok v _ => some v
  | .error _ _ => none

/-- The state after the call (for a throw, the state at the throw). -/
def RegResult.state : RegResult α → ModelRegistry
  | .ok _ s => s
  | .error _ s => s

/-- Whether the call returned normally. -/
def RegResult.isOk : RegResult α → Bool
  | .ok _ _ => true
  | .error _ _ => false

/-- Sequencing of registry calls: propagate a throw. -/
def RegResult.andThen : RegResult Unit → (ModelRegistry → RegResult α) → RegResult α
  | .ok _ s, f => f s
  | .error m s, _ => .error m s

/-- JS truthiness of `config.pattern` (a RegExp object is always truthy). -/
def patTruthy : Option (String → Bool) → Bool
  | none => false
  | some _ => true

/-- JS truthiness of `config.exactMatch` (a string is falsy iff empty). -/
def exactTruthy : Option String → Bool
  | none => false
  | some s => !(s == "")

/-- `config.pattern.test(model)` (false when no pattern is present, matching
the short-circuit `config.pattern && config.pattern.test(model)`). -/
def patApply : Option (String → Bool) → String → Bool
  | none, _ => false
  | some p, model => p model

/-- `Map.prototype.get`-style lookup on the cache association list. -/
def cacheLookup : List (String × ModelConfig) → String → Option ModelConfig
  | [], _ => none
  | (k, v) :: rest, model => if k = model then some v else cacheLookup rest model

/-- `Map.prototype.set`: replace the value at an existing key in place,
otherwise append the new binding. -/
def cacheSet : List (String × ModelConfig) → String → ModelConfig → List (String × ModelConfig)
  | [], model, c => [(model, c)]
  | (k, v) :: rest, model, c =>
      if k = model then (model, c) :: rest else (k, v) :: cacheSet rest model c

/-- `ModelRegistry.register` (part_000 lines 87-100): throw when neither
matcher is truthy, else `configs.unshift(config)` and `cache.clear()`. -/
def register (reg : ModelRegistry) (config : ModelConfig) : RegResult Unit :=
  if !(patTruthy config.pattern) && !(exactTruthy config.exactMatch) then
    .error "Model config must have either pattern or exactMatch" reg
  else
    .ok () { configs := config :: reg.configs, cache := [] }

/-- The body of `getConfig`'s for-loop (part_000 lines 110-120): for each
config, first the exact-match branch, then the pattern branch; the first
config for which a branch fires is returned. -/
def findLoop (model : String) : List ModelConfig → Option ModelConfig
  | [] => none
  | config :: rest =>
      if exactTruthy config.exactMatch && config.exactMatch == some model then
        some config
      else if patTruthy config.pattern && patApply config.pattern model then
        some config
      else
        findLoop model rest

/-- The per-rule match condition of `getConfig`: the disjunction of the two
branch guards of the loop body. -/
def ruleMatches (config : ModelConfig) (model : String) : Bool :=
  (exactTruthy config.exactMatch && config.exactMatch == some model)
    || (patTruthy config.pattern && patApply config.pattern model)

/-- `ModelRegistry.getConfig` (part_000 lines 105-123): serve from cache if
present; else scan the configs, cache and return the first match; else throw. -/
def getConfig (reg : ModelRegistry) (model : String) : RegResult ModelConfig :=
  match cacheLookup reg.cache model with
  | some cached => .ok cached reg
  | none =>
      match findLoop model reg.configs with
      | some config => .ok config { reg with cache := cacheSet reg.cache model config }
      | none => .error ("No configuration found for model: " ++ model) reg

/-- `ModelRegistry.clearCache` (part_000 lines 166-169). -/
def clearCache (reg : ModelRegistry) : ModelRegistry :=
  { reg with cache := [] }

/-- Test function of the default fallback regex `/.*/`: matches every string. -/
def patAny : String → Bool := fun _ => true

/-- Case-insensitive character comparison, as under the regex `i` flag. -/
def charCI (a b : Char) : Bool := a.toLower == b.toLower

/-- Case-insensitive list-level starts-with test. -/
def startsCIList : List Char → List Char → Bool
  | [], _ => true
  | _ :: _, [] => false
  | p :: ps, c :: cs => charCI p c && startsCIList ps cs

/-- Test function of an anchored case-insensitive literal regex `/^lit/i`. -/
def startsCI (lit : String) (model : String) : Bool :=
  startsCIList lit.data model.data

/-- Test function of `/^o\d+/i`: an `o` (either case) then at least one digit. -/
def patODigits : String → Bool := fun model =>
  match model.data with
  | c :: d :: _ => (charCI c 'o') && d.isDigit
  | _ => false

/-- Default fallback rule (part_000 lines 32-39). -/
def defaultFallback : ModelConfig :=
  { pattern := some patAny
    personaRole := .system
    encoding := .gpt4o
    supportsToolCalls := some true
    family := some "unknown"
    description := some "Default fallback configuration" }

/-- Default Claude-family rule (part_000 lines 42-49). -/
def defaultClaude : ModelConfig :=
  { pattern := some (startsCI "claude")
    personaRole := .system
    encoding := .cl100k_base
    supportsToolCalls := some true
    family := some "claude"
    description := some "Claude family models" }

/-- Default O-series rule (part_000 lines 52-59). -/
def defaultOSeries : ModelConfig :=
  { pattern := some patODigits
    personaRole := .developer
    encoding := .gpt4o
    supportsToolCalls := some true
    family := some "o-series"
    description := some "O-series reasoning models" }

/-- Default GPT-4-family rule (part_000 lines 62-69). -/
def defaultGpt4 : ModelConfig :=
  { pattern := some (startsCI "gpt-4")
    personaRole := .system
    encoding := .gpt4o
    supportsToolCalls := some true
    family := some "gpt-4"
    description := some "GPT-4 family models" }

/-- Default Gemini-family rule (part_000 lines 72-79). -/
def defaultGemini : ModelConfig :=
  { pattern := some (startsCI "gemini")
    personaRole := .system
    encoding := .cl100k_base
    supportsToolCalls := some true
    family := some "gemini"
    description := some "Gemini family models" }

/-- `ModelRegistry.registerDefaults` (part_000 lines 30-82): register the
fallback first (so `unshift` leaves it last), then Claude, O-series, GPT-4,
Gemini. -/
def registerDefaults (reg : ModelRegistry) : RegResult Unit :=
  (register reg defaultFallback).andThen fun s1 =>
  (register s1 defaultClaude).andThen fun s2 =>
  (register s2 defaultOSeries).andThen fun s3 =>
  (register s3 defaultGpt4).andThen fun s4 =>
  register s4 defaultGemini

/-- The state a `ModelRegistry` starts from before `registerDefaults`. -/
def emptyRegistry : ModelRegistry := { configs := [], cache := [] }

/-- The constructor (part_000 lines 18-25): defaults registered on the empty
state. -/
def constructRegistry : RegResult Unit := registerDefaults emptyRegistry

/-- The state of a freshly constructed registry. -/
def freshRegistry : ModelRegistry := constructRegistry.state

/-- `ModelRegistry.reset` (part_000 lines 156-161): empty the configs, clear
the cache, and re-run `registerDefaults` — the input state is discarded. -/
def reset (_reg : ModelRegistry) : RegResult Unit :=
  registerDefaults emptyRegistry

/-- Cache coherence: every cached binding is what a scan of the current
configs would produce.  This holds for every state reachable through the
class's methods, since every mutation of `configs` empties the cache. -/
def Coherent (reg : ModelRegistry) : Prop :=
  ∀ k v, cacheLookup reg.cache k = some v → findLoop k reg.configs = some v

/-- A custom pattern rule, as in the llama test of model-registry.test.ts. -/
def llamaRule : ModelConfig :=
  { pattern := some (startsCI "llama")
    personaRole := .system
    encoding := .cl100k_base
    family := some "llama" }

/-- A custom exact-match rule, as in the reset test of model-registry.test.ts. -/
def customExactRule : ModelConfig :=
  { exactMatch := some "my-custom-model"
    personaRole := .developer
    encoding := .cl100k_base
    family := some "custom" }

/-- A rule with both matchers set (the spec calls this invalid). -/
def bothRule : ModelConfig :=
  { pattern := some patAny
    exactMatch := some "special-model"
    personaRole := .system
    encoding := .gpt4o
    family := some "both" }

/-- A rule with neither matcher set. -/
def noMatcherRule : ModelConfig :=
  { personaRole := .system
    encoding := .gpt4o }

lemma findLoop_eq_find (model : String) (l : List ModelConfig) :
    findLoop model l = l.find? (fun c => ruleMatches c model) := by
  induction l with
  | nil => rfl
  | cons c rest ih =>
      unfold findLoop ruleMatches
      cases he : (exactTruthy c.exactMatch && c.exactMatch == some model) <;>
        cases hp : (patTruthy c.pattern && patApply c.pattern model) <;>
          simp [List.find?, ruleMatches, he, hp, ih]

lemma findLoop_cons_of_matches (id : String) (r : ModelConfig) (l : List ModelConfig)
    (h : ruleMatches r id = true) : findLoop id (r :: l) = some r := by
  have h' : (exactTruthy r.exactMatch && r.exactMatch == some id) = true
      ∨ (patTruthy r.pattern && patApply r.pattern id) = true := by
    simpa [ruleMatches] using h
  unfold findLoop
  rcases h' with h1 | h1 <;> simp [h1]

lemma cacheLookup_cacheSet (m : List (String × ModelConfig)) (model k : String)
    (c : ModelConfig) :
    cacheLookup (cacheSet m model c) k = if model = k then some c else cacheLookup m k := by
  induction m with
  | nil => by_cases h2 : model = k <;> simp [cacheSet, cacheLookup, h2]
  | cons a rest ih =>
      obtain ⟨ka, va⟩ := a
      by_cases h1 : ka = model
      · subst h1
        by_cases h2 : ka = k <;> simp [cacheSet, cacheLookup, h2]
      · by_cases h2 : ka = k <;> by_cases h3 : model = k <;>
          simp_all [cacheSet, cacheLookup, h1, h2, h3, ih]

lemma cacheLookup_cacheSet_self (m : List (String × ModelConfig)) (k : String)
    (c : ModelConfig) : cacheLookup (cacheSet m k c) k = some c := by
  rw [cacheLookup_cacheSet]; simp

lemma coherent_of_cache_empty (reg : ModelRegistry) (h : reg.cache = []) :
    Coherent reg := by
  intro k v hkv
  rw [h] at hkv
  simp [cacheLookup] at hkv

/-- The registry states reachable through the class's public methods,
starting from a freshly constructed registry. -/
inductive Reachable : ModelRegistry → Prop where
  | fresh : Reachable freshRegistry
  | viaRegister {r : ModelRegistry} {c : ModelConfig} {r' : ModelRegistry} :
      Reachable r → register r c = RegResult.ok () r' → Reachable r'
  | viaRegisterThrow {r : ModelRegistry} {c : ModelConfig} {msg : String} {r' : ModelRegistry} :
      Reachable r → register r c = RegResult.error msg r' → Reachable r'
  | viaGetConfig {r : ModelRegistry} {id : String} {c : ModelConfig} {r' : ModelRegistry} :
      Reachable r → getConfig r id = RegResult.ok c r' → Reachable r'
  | viaGetConfigThrow {r : ModelRegistry} {id : String} {msg : String} {r' : ModelRegistry} :
      Reachable r → getConfig r id = RegResult.error msg r' → Reachable r'
  | viaReset {r : ModelRegistry} {r' : ModelRegistry} :
      Reachable r → reset r = RegResult.ok () r' → Reachable r'
  | viaClearCache {r : ModelRegistry} :
      Reachable r → Reachable (clearCache r)

lemma register_cases (reg : ModelRegistry) (c : ModelConfig) :
    register reg c = RegResult.error "Model config must have either pattern or exactMatch" reg
    ∨ register reg c = RegResult.ok () { configs := c :: reg.configs, cache := [] } := by
  unfold register
  split
  · exact Or.inl rfl
  · exact Or.inr rfl

/-- Every reachable registry state has a coherent cache: each cached binding
is exactly what a scan of the current configs would produce. -/
theorem reachable_coherent {reg : ModelRegistry} (h : Reachable reg) : Coherent reg := by
  induction h with
  | fresh => exact coherent_of_cache_empty _ rfl
  | viaRegister hr hstep ih =>
      rcases register_cases _ _ with hc | hc <;> rw [hc] at hstep
      · cases hstep
      · cases hstep
        exact coherent_of_cache_empty _ rfl
  | viaRegisterThrow hr hstep ih =>
      rcases register_cases _ _ with hc | hc <;> rw [hc] at hstep
      · cases hstep; exact ih
      · cases hstep
  | viaGetConfig hr hstep ih =>
      rename_i r id c r'
      unfold getConfig at hstep
      split at hstep
      · cases hstep; exact ih
      · rename_i hmiss
        split at hstep
        · rename_i cfg hf
          cases hstep
          intro k v hkv
          simp only at hkv
          rw [cacheLookup_cacheSet] at hkv
          by_cases hk : id = k
          · subst hk
            simp at hkv
            subst hkv
            exact hf
          · rw [if_neg hk] at hkv
            exact ih k v hkv
        · cases hstep
  | viaGetConfigThrow hr hstep ih =>
      unfold getConfig at hstep
      split at hstep
      · cases hstep
      · split at hstep
        · cases hstep
        · cases hstep; exact ih
  | viaReset hr hstep ih =>
      rename_i r r'
      have hres : reset r = RegResult.ok () freshRegistry := rfl
      rw [hres] at hstep
      cases hstep
      exact coherent_of_cache_empty _ rfl
  | viaClearCache hr ih =>
      exact coherent_of_cache_empty _ rfl

/-- C1: `getConfig` on a cache miss scans the rule sequence in its current
order and returns the first matching rule (exact-string branch checked before
the pattern branch within each rule); `register` with a valid matcher inserts
the rule at the front of the sequence; the constructor succeeds and leaves
the five default rules in effective check order Gemini, GPT-4, O-series,
Claude, catch-all fallback last. -/
theorem getConfig_first_match_register_prepends
    (reg : ModelRegistry) (id : String) (r : ModelConfig)
    (hmiss : cacheLookup reg.cache id = none)
    (hvalid : (patTruthy r.pattern || exactTruthy r.exactMatch) = true) :
    getConfig reg id =
      (match reg.configs.find? (fun c => ruleMatches c id) with
        | some c => RegResult.ok c { reg with cache := cacheSet reg.cache id c }
        | none => RegResult.error ("No configuration found for model: " ++ id) reg)
    ∧ register reg r = RegResult.ok () { configs := r :: reg.configs, cache := [] }
    ∧ constructRegistry = RegResult.ok () freshRegistry
    ∧ freshRegistry.configs
        = [defaultGemini, defaultGpt4, defaultOSeries, defaultClaude, defaultFallback] := by
  refine ⟨?_, ?_, rfl, rfl⟩
  · unfold getConfig
    rw [hmiss, findLoop_eq_find]
  · unfold register
    cases hp : patTruthy r.pattern <;> cases he : exactTruthy r.exactMatch <;>
      simp_all

/-- Witness for C1 at a fresh registry, the identifier `llama-3`, and the
llama pattern rule. -/
theorem getConfig_first_match_register_prepends_witness :
    (getConfig freshRegistry "llama-3" =
      (match freshRegistry.configs.find? (fun c => ruleMatches c "llama-3") with
        | some c =>
            RegResult.ok c { freshRegistry with cache := cacheSet freshRegistry.cache "llama-3" c }
        | none =>
            RegResult.error ("No configuration found for model: " ++ "llama-3") freshRegistry))
    ∧ register freshRegistry llamaRule
        = RegResult.ok () { configs := llamaRule :: freshRegistry.configs, cache := [] }
    ∧ constructRegistry = RegResult.ok () freshRegistry
    ∧ freshRegistry.configs
        = [defaultGemini, defaultGpt4, defaultOSeries, defaultClaude, defaultFallback] :=
  getConfig_first_match_register_prepends freshRegistry "llama-3" llamaRule rfl rfl

/-- C2: concrete resolutions on a freshly constructed registry: `gpt-4o` is
GPT-4-family with system role and gpt-4o encoding; `claude-3-opus-20240229`
is Claude-family with system role and cl100k_base encoding; `o1-preview` is
O-series with developer role; `unknown-model-xyz` falls back to the unknown
family with system role. -/
theorem fresh_registry_concrete_resolutions :
    ((getConfig freshRegistry "gpt-4o").getValue.map ModelConfig.family
        = some (some "gpt-4")
      ∧ (getConfig freshRegistry "gpt-4o").getValue.map ModelConfig.personaRole
        = some PersonaRole.system
      ∧ (getConfig freshRegistry "gpt-4o").getValue.map ModelConfig.encoding
        = some TokenizerEncoding.gpt4o)
    ∧ ((getConfig freshRegistry "claude-3-opus-20240229").getValue.map ModelConfig.family
        = some (some "claude")
      ∧ (getConfig freshRegistry "claude-3-opus-20240229").getValue.map ModelConfig.personaRole
        = some PersonaRole.system
      ∧ (getConfig freshRegistry "claude-3-opus-20240229").getValue.map ModelConfig.encoding
        = some TokenizerEncoding.cl100k_base)
    ∧ ((getConfig freshRegistry "o1-preview").getValue.map ModelConfig.family
        = some (some "o-series")
      ∧ (getConfig freshRegistry "o1-preview").getValue.map ModelConfig.personaRole
        = some PersonaRole.developer)
    ∧ ((getConfig freshRegistry "unknown-model-xyz").getValue.map ModelConfig.family
        = some (some "unknown")
      ∧ (getConfig freshRegistry "unknown-model-xyz").getValue.map ModelConfig.personaRole
        = some PersonaRole.system) :=
  ⟨⟨rfl, rfl, rfl⟩, ⟨rfl, rfl, rfl⟩, ⟨rfl, rfl⟩, ⟨rfl, rfl⟩⟩

/-- C3 counterexample: a rule with BOTH `pattern` and `exactMatch` set is
accepted by `register` (it returns normally and prepends the rule), contrary
to the claim that such a rule also fails. -/
theorem register_both_matchers_succeeds :
    bothRule.pattern.isSome = true
    ∧ bothRule.exactMatch.isSome = true
    ∧ register freshRegistry bothRule
        = RegResult.ok () { configs := bothRule :: freshRegistry.configs, cache := [] } :=
  ⟨rfl, rfl, rfl⟩

/-- C3 amended: `register` fails with "Model config must have either pattern
or exactMatch" exactly when the rule has neither matcher set in the JS-truthy
sense (no pattern, and an exact match that is absent or the empty string); a
rule with both matchers set is registered normally. -/
theorem register_error_iff_no_matcher (reg : ModelRegistry) (c : ModelConfig) :
    register reg c = RegResult.error "Model config must have either pattern or exactMatch" reg
      ↔ (patTruthy c.pattern = false ∧ exactTruthy c.exactMatch = false) := by
  unfold register
  cases hp : patTruthy c.pattern <;> cases he : exactTruthy c.exactMatch <;> simp

/-- C4: after a successful `register r`, the cache is empty and the next
`getConfig id` returns `r` whenever `r` matches `id`. -/
theorem register_then_getConfig_returns_new_rule
    (reg reg' : ModelRegistry) (r : ModelConfig) (id : String)
    (hreg : register reg r = RegResult.ok () reg')
    (hmatch : ruleMatches r id = true) :
    reg'.cache = [] ∧ (getConfig reg' id).getValue = some r := by
  rcases register_cases reg r with hc | hc <;> rw [hc] at hreg
  · cases hreg
  · cases hreg
    refine ⟨rfl, ?_⟩
    simp [getConfig, cacheLookup, findLoop_cons_of_matches id r reg.configs hmatch,
      RegResult.getValue]

/-- Witness for C4: registering the llama pattern rule on a fresh registry
and resolving `llama-3-70b`. -/
theorem register_then_getConfig_returns_new_rule_witness :
    ((register freshRegistry llamaRule).state).cache = []
    ∧ (getConfig ((register freshRegistry llamaRule).state) "llama-3-70b").getValue
        = some llamaRule :=
  register_then_getConfig_returns_new_rule freshRegistry
    ((register freshRegistry llamaRule).state) llamaRule "llama-3-70b" rfl rfl

/-- C5: if `getConfig` returns rule `c` with resulting state `reg'`, then the
queried identifier is cached in `reg'` with exactly `c`, and a second
`getConfig` on `reg'` is a cache hit returning the same rule `c` with the
state unchanged. -/
theorem getConfig_twice_returns_same_rule
    (reg reg' : ModelRegistry) (id : String) (c : ModelConfig)
    (h : getConfig reg id = RegResult.ok c reg') :
    cacheLookup reg'.cache id = some c
    ∧ getConfig reg' id = RegResult.ok c reg' := by
  cases hc : cacheLookup reg.cache id with
  | some cached =>
      simp [getConfig, hc] at h
      obtain ⟨h1, h2⟩ := h
      subst h1; subst h2
      exact ⟨hc, by simp [getConfig, hc]⟩
  | none =>
      cases hf : findLoop id reg.configs with
      | some cfg =>
          simp [getConfig, hc, hf] at h
          obtain ⟨h1, h2⟩ := h
          subst h1; subst h2
          refine ⟨by simpa using cacheLookup_cacheSet_self reg.cache id cfg, ?_⟩
          simp [getConfig, cacheLookup_cacheSet_self reg.cache id cfg]
      | none => simp [getConfig, hc, hf] at h

/-- Witness for C5: resolving `gpt-4o` on a fresh registry, then again on the
resulting state. -/
theorem getConfig_twice_returns_same_rule_witness :
    cacheLookup ((getConfig freshRegistry "gpt-4o").state).cache "gpt-4o" = some defaultGpt4
    ∧ getConfig ((getConfig freshRegistry "gpt-4o").state) "gpt-4o"
        = RegResult.ok defaultGpt4 ((getConfig freshRegistry "gpt-4o").state) :=
  getConfig_twice_returns_same_rule freshRegistry
    ((getConfig freshRegistry "gpt-4o").state) "gpt-4o" defaultGpt4 rfl

/-- C6: `register` on a rule with neither matcher set throws the malformed-rule
error and the resulting state is exactly the input state — rule sequence and
cache untouched. -/
theorem register_invalid_leaves_state_unchanged
    (reg : ModelRegistry) (c : ModelConfig)
    (hp : patTruthy c.pattern = false) (he : exactTruthy c.exactMatch = false) :
    register reg c
      = RegResult.error "Model config must have either pattern or exactMatch" reg := by
  simp [register, hp, he]

/-- Witness for C6: the matcher-less rule on a fresh registry. -/
theorem register_invalid_leaves_state_unchanged_witness :
    register freshRegistry noMatcherRule
      = RegResult.error "Model config must have either pattern or exactMatch" freshRegistry :=
  register_invalid_leaves_state_unchanged freshRegistry noMatcherRule rfl rfl

/-- C7: on any registry whose rule sequence is the default one (freshly
constructed or after `reset`), `getConfig` never reaches its no-match error:
the catch-all pattern matches every identifier. -/
theorem default_rules_make_no_match_unreachable
    (reg : ModelRegistry) (id : String)
    (h : reg.configs = freshRegistry.configs) :
    (getConfig reg id).isOk = true := by
  cases hc : cacheLookup reg.cache id with
  | some cached => simp [getConfig, hc, RegResult.isOk]
  | none =>
      have hfall : ruleMatches defaultFallback id = true := rfl
      have hmem : defaultFallback ∈ reg.configs := by
        rw [h]
        have hconf : freshRegistry.configs
            = [defaultGemini, defaultGpt4, defaultOSeries, defaultClaude, defaultFallback] := rfl
        rw [hconf]
        simp
      have hsome : (findLoop id reg.configs).isSome = true := by
        rw [findLoop_eq_find]
        exact List.find?_isSome.mpr ⟨defaultFallback, hmem, hfall⟩
      cases hf : findLoop id reg.configs with
      | none => rw [hf] at hsome; simp at hsome
      | some cfg => simp [getConfig, hc, hf, RegResult.isOk]

/-- Witness for C7: a fresh registry and an identifier matching no specific
family rule. -/
theorem default_rules_make_no_match_unreachable_witness :
    (getConfig freshRegistry "zzz-no-such-model").isOk = true :=
  default_rules_make_no_match_unreachable freshRegistry "zzz-no-such-model" rfl

/-- C8: `reset` discards the input state entirely and rebuilds exactly the
freshly constructed registry through the same registration path, so every
identifier resolves as on a fresh registry afterwards; in particular, an
identifier that was custom-registered as an exact-match rule resolves to the
catch-all (family "unknown") after `reset`. -/
theorem reset_restores_fresh_behavior (reg : ModelRegistry) :
    reset reg = RegResult.ok () freshRegistry
    ∧ (∀ id, getConfig ((reset reg).state) id = getConfig freshRegistry id)
    ∧ (getConfig ((register freshRegistry customExactRule).state) "my-custom-model").getValue
        = some customExactRule
    ∧ (getConfig ((reset ((register freshRegistry customExactRule).state)).state)
        "my-custom-model").getValue = some defaultFallback
    ∧ defaultFallback.family = some "unknown" :=
  ⟨rfl, fun _ => rfl, rfl, rfl, rfl⟩

/-- C9: on every reachable registry state, `clearCache` leaves the rule
sequence untouched and never changes the value `getConfig` resolves for any
identifier — the cache is a pure memoization layer. -/
theorem clearCache_preserves_resolution
    (reg : ModelRegistry) (id : String) (h : Reachable reg) :
    (getConfig (clearCache reg) id).getValue = (getConfig reg id).getValue
    ∧ (clearCache reg).configs = reg.configs := by
  have hco : Coherent reg := reachable_coherent h
  refine ⟨?_, rfl⟩
  cases hc : cacheLookup reg.cache id with
  | some v =>
      have hf := hco id v hc
      simp [getConfig, clearCache, cacheLookup, hc, hf, RegResult.getValue]
  | none =>
      cases hf : findLoop id reg.configs with
      | some cfg => simp [getConfig, clearCache, cacheLookup, hc, hf, RegResult.getValue]
      | none => simp [getConfig, clearCache, cacheLookup, hc, hf, RegResult.getValue]

/-- Witness for C9: the state reached by resolving `gpt-4o` on a fresh
registry (so its cache is non-empty), then clearing the cache. -/
theorem clearCache_preserves_resolution_witness :
    (getConfig (clearCache ((getConfig freshRegistry "gpt-4o").state)) "gpt-4o").getValue
      = (getConfig ((getConfig freshRegistry "gpt-4o").state) "gpt-4o").getValue
    ∧ (clearCache ((getConfig freshRegistry "gpt-4o").state)).configs
      = ((getConfig freshRegistry "gpt-4o").state).configs :=
  clearCache_preserves_resolution ((getConfig freshRegistry "gpt-4o").state) "gpt-4o"
    (Reachable.viaGetConfig Reachable.fresh
      (show getConfig freshRegistry "gpt-4o"
          = RegResult.ok defaultGpt4 ((getConfig freshRegistry "gpt-4o").state) from rfl))

/-- C10: on a fresh registry the empty identifier does not raise: the
catch-all pattern matches the empty string, so it resolves to the fallback
rule (family "unknown", system persona role, gpt-4o encoding). -/
theorem empty_identifier_resolves_to_fallback :
    (getConfig freshRegistry "").isOk = true
    ∧ (getConfig freshRegistry "").getValue = some defaultFallback
    ∧ defaultFallback.family = some "unknown"
    ∧ defaultFallback.personaRole = PersonaRole.system
    ∧ defaultFallback.encoding = TokenizerEncoding.gpt4o :=
  ⟨rfl, rfl, rfl, rfl, rfl⟩
